import Mathlib

/-!
Verification of the gae-sessions session manager (src/gaesessions/__init__.py)
against its specification.

The development is a shallow embedding of the module. Python dicts become
association lists with unique keys; the two storage tiers (memcache and the
App Engine datastore) become explicit `World` state; the nondeterministic
outcomes of the external capabilities (memcache set success, datastore put
failure modes, fresh session ids, the current time) are threaded in as
explicit environment parameters; observable effects (tier reads and writes,
log calls) are recorded in an event trace; Python exceptions become
`Except PyExc`.
-/

set_option autoImplicit false
set_option synthInstance.maxSize 1000

namespace GaeSessions

/-- Shallow embedding of a `db.Model` entity instance (a structured record
value stored in the session payload): an entity kind plus property values. -/
structure Model where
  kind : String
  props : List (String × Int)
deriving DecidableEq, Repr

/-- The protobuf encoding of a `db.Model` produced by `db.model_to_protobuf`.
The protobuf wire format itself belongs to the external App Engine library;
it is modelled as a lossless schema-aware container for the entity data, per
the capability contract the code relies on. -/
structure Protobuf where
  kind : String
  props : List (String × Int)
deriving DecidableEq, Repr

/-- Embedding of `db.model_to_protobuf`. -/
def model_to_protobuf (m : Model) : Protobuf :=
  ⟨m.kind, m.props⟩

/-- Embedding of `db.model_from_protobuf`. -/
def model_from_protobuf (p : Protobuf) : Model :=
  ⟨p.kind, p.props⟩

/-- Plain (non-`db.Model`) session values: the kinds of picklable values the
payload carries, including datetime values (epoch seconds) such as the
expiration timestamp. -/
inductive Plain where
  | pInt (n : Int)
  | pStr (s : String)
  | pTime (t : Nat)
  | pList (l : List Int)
deriving DecidableEq, Repr

/-- A session payload value: either a structured record (`db.Model` instance,
dispatched on by `isinstance(v, db.Model)`) or a plain value. -/
inductive Value where
  | model (m : Model)
  | plain (p : Plain)
deriving DecidableEq, Repr

/-- The result of `pickle.dumps`. The pickle wire format belongs to the
Python standard library; it is modelled as a lossless container, per the
serializer contract the code relies on. -/
structure Pickled (α : Type) where
  val : α
deriving DecidableEq, Repr

/-- Embedding of `pickle.dumps`. -/
def pickle_dumps {α : Type} (a : α) : Pickled α := ⟨a⟩

/-- Embedding of `pickle.loads`. -/
def pickle_loads {α : Type} (p : Pickled α) : α := p.val

/-- A Python dict, embedded as an association list whose construction
operations keep keys unique (as Python dicts do). -/
abbrev PyDict := List (String × Value)

/-- The encoded form of a payload: `pickle.dumps((eP, eO))` where `eP` maps
keys to protobuf-encoded models and `eO` holds everything else. -/
abbrev PDump := Pickled (List (String × Protobuf) × PyDict)

/-- Python dict lookup `d[k]` (as an `Option`); with unique keys the first
match is the binding. -/
def getItem {α : Type} : List (String × α) → String → Option α
  | [], _ => none
  | (k', v) :: t, k => if k' = k then some v else getItem t k

/-- Python dict assignment `d[k] = v`: replaces the binding in place if the
key is present, appends otherwise. -/
def setItem {α : Type} : List (String × α) → String → α → List (String × α)
  | [], k, v => [(k, v)]
  | (k', v') :: t, k, v => if k' = k then (k, v) :: t else (k', v') :: setItem t k v

/-- Python dict deletion `del d[k]` on a present key: drops the binding. -/
def delItem {α : Type} : List (String × α) → String → List (String × α)
  | [], _ => []
  | (k', v') :: t, k => if k' = k then t else (k', v') :: delItem t k

/-- The keys of a dict. -/
def keys {α : Type} (d : List (String × α)) : List String :=
  d.map Prod.fst

/-- Python dict equality `d1 == d2`: same keys, and equal values at every
key, regardless of entry order. -/
def pyDictEq (d1 d2 : PyDict) : Bool :=
  d1.all (fun kv => getItem d2 kv.1 == some kv.2) &&
  d2.all (fun kv => getItem d1 kv.1 == some kv.2)

/-- One loop step of `Session.__encode_data`: route the entry into `eP`
(protobuf-encoded models) or `eO` (everything else) by an
`isinstance(v, db.Model)` test. -/
def encodeStep (acc : List (String × Protobuf) × PyDict) (kv : String × Value) :
    List (String × Protobuf) × PyDict :=
  match kv.2 with
  | .model m => (setItem acc.1 kv.1 (model_to_protobuf m), acc.2)
  | .plain _ => (acc.1, setItem acc.2 kv.1 kv.2)

/-- Embedding of `Session.__encode_data`: partition the payload into
protobuf-encoded models and plain entries, then pickle the pair. -/
def encode_data (d : PyDict) : PDump :=
  pickle_dumps (d.foldl encodeStep ([], []))

/-- One loop step of `Session.__decode_data`: `eO[k] = db.model_from_protobuf(v)`. -/
def decodeStep (acc : PyDict) (kv : String × Protobuf) : PyDict :=
  setItem acc kv.1 (.model (model_from_protobuf kv.2))

/-- Embedding of `Session.__decode_data`: unpickle the pair, then fold the
decoded model entries back into the plain-entry dict. -/
def decode_data (p : PDump) : PyDict :=
  (pickle_loads p).1.foldl decodeStep (pickle_loads p).2

/-- Log severity: the source calls both `logging.warning` and
`logging.error`. -/
inductive Severity where
  | warning
  | error
deriving DecidableEq, Repr

/-- Failure modes of the datastore put: `db.TransactionFailedError` (a
transient failure) and `db.CapabilityDisabledError` (capability disabled). -/
inductive DsErr where
  | transientFailure
  | capabilityDisabled
deriving DecidableEq, Repr

/-- Observable effects recorded while running an operation: tier reads and
writes (with the key, and payload bytes for writes), and log calls. -/
inductive Event where
  | encode
  | mcSet (sid : String) (pd : PDump) (ok : Bool)
  | dsPut (sid : String) (pd : PDump) (outcome : Option DsErr)
  | mcGet (sid : String) (hit : Bool)
  | dsGet (sid : String) (hit : Bool)
  | log (sev : Severity)
deriving DecidableEq, Repr

/-- Python exceptions the embedded operations can raise. -/
inductive PyExc where
  | keyError (msg : String)
  | attributeError (attr : String)
deriving DecidableEq, Repr

/-- The two storage tiers: memcache (volatile cache) and the datastore
(`SessionModel` entities). The datastore key `db.Key.from_path(kind, sid)`
is injective in `sid` for the fixed kind `SessionModel`, so both tiers are
keyed by the session id string. Entries hold the encoded payload bytes
(`pdump`). -/
structure World where
  memcache : List (String × PDump)
  datastore : List (String × PDump)
deriving DecidableEq, Repr

/-- Python truthiness of the optional session id string: `None` and the
empty string are falsy. -/
def truthy : Option String → Bool
  | none => false
  | some s => s != ""

/-- The in-memory `Session` object. Fields are exactly the attributes the
source ever assigns: `sid`, `cookie_header_data`, `data`, `dirty`, and
`db_key` (modelled by the sid string inside the datastore key). The source
also mentions two attribute names it never assigns — `self.key` in
`__clear_data` and `self.cookie_header` in `terminate` — so reading or
deleting those raises `AttributeError`. -/
structure Session where
  sid : Option String
  cookie_header_data : Option String
  data : PyDict
  dirty : Bool
  db_key : Option String
deriving DecidableEq, Repr

/-- Module constant `COOKIE_PATH`. -/
def COOKIE_PATH : String := "/"

/-- Module constant `COOKIE_LIFETIME` (7 days), in seconds. -/
def COOKIE_LIFETIME : Nat := 7 * 24 * 60 * 60

/-- Rendering of `ex.strftime("%a, %d-%b-%Y %H:%M:%S PST")` for a datetime
value (external library call, modelled as an injective rendering of the
timestamp). -/
def strftime (t : Nat) : String :=
  toString t ++ " PST"

/-- Calling `.strftime` on a payload value: only datetime values support it;
anything else raises `AttributeError`. -/
def strftimeV : Value → Except PyExc String
  | .plain (.pTime t) => .ok (strftime t)
  | _ => .error (.attributeError "strftime")

/-- The `SimpleCookie` serialization `cookie.output` (with an empty header
prefix) for the sid cookie with path and expires attributes set (external
cookie codec). -/
def cookie_output (sid : String) (expires : String) : String :=
  "sid=" ++ sid ++ "; expires=" ++ expires ++ "; Path=" ++ COOKIE_PATH

/-- Environment for `Session.start` and id rotation: the fresh session id
(the value of `hashlib.md5(os.urandom(16)).hexdigest()`) and the current
time (`datetime.datetime.now()`, epoch seconds). -/
structure StartEnv where
  newSid : String
  now : Nat
deriving DecidableEq, Repr

/-- Environment for `Session.save`: whether each `memcache.set` attempt
succeeds, and the outcome of the datastore put (`none` = success). -/
structure SaveEnv where
  mcSetOk1 : Bool
  dsFailure : Option DsErr
  mcSetOk2 : Bool
deriving DecidableEq, Repr

/-- Capability `memcache.set(key, value)`: on success the cache maps the key
to the value and `True` is returned; on failure the cache is unchanged. -/
def mcSet (w : World) (sid : String) (pd : PDump) (ok : Bool) : World × Bool :=
  if ok then ({ w with memcache := setItem w.memcache sid pd }, true)
  else (w, false)

/-- Capability `SessionModel(key_name=sid, pdump=pdump).put()`: writes the
entity on success; either failure mode raises and leaves the datastore
unchanged. -/
def dsPut (w : World) (sid : String) (pd : PDump) (outcome : Option DsErr) :
    Except DsErr World :=
  match outcome with
  | none => .ok { w with datastore := setItem w.datastore sid pd }
  | some e => .error e

/-- Embedding of `Session.__clear_data`. The body is
`memcache.delete(self.key)` then `db.delete(self.db_key)`, but `key` is not
an attribute ever assigned on `Session` anywhere in the source (the id lives
in `sid`, the datastore key in `db_key`), so the very first expression
raises `AttributeError` and neither tier is touched. -/
def clear_data (_s : Session) (_w : World) : Except PyExc (World × List Event) :=
  .error (.attributeError "key")

/-- Embedding of `Session.__set_sid(sid, make_cookie)`: deletes the old
session data if an id was set, installs the new id and datastore key, and,
when `make_cookie` is set, builds the sid cookie header from the payload
expiration value. -/
def set_sid (s : Session) (sid : String) (make_cookie : Bool) (w : World) :
    Except PyExc (Session × World × List Event) := do
  let (w1, evs) ← if truthy s.sid then clear_data s w else .ok (w, [])
  let s1 := { s with sid := some sid, db_key := some sid }
  if make_cookie then
    match getItem s1.data "expiration" with
    | none => .error (.keyError "expiration")
    | some ex => do
      let exs ← strftimeV ex
      .ok ({ s1 with cookie_header_data := some (cookie_output sid exs) }, w1, evs)
  else
    .ok (s1, w1, evs)

/-- Embedding of `Session.start(expiration=None)`: marks dirty, resets the
payload to hold only the expiration entry (the explicit value, else now plus
`COOKIE_LIFETIME`), then assigns a fresh id with a cookie. -/
def start (s : Session) (expiration : Option Value) (env : StartEnv) (w : World) :
    Except PyExc (Session × World × List Event) :=
  let s1 := { s with dirty := true, data := [] }
  let e := expiration.getD (.plain (.pTime (env.now + COOKIE_LIFETIME)))
  let s2 := { s1 with data := setItem s1.data "expiration" e }
  set_sid s2 env.newSid true w

/-- Embedding of `Session.user_is_now_logged_in`: assign a fresh id (data
carries over) and mark dirty. -/
def user_is_now_logged_in (s : Session) (newSid : String) (w : World) :
    Except PyExc (Session × World × List Event) := do
  let (s1, w1, evs) ← set_sid s newSid true w
  .ok ({ s1 with dirty := true }, w1, evs)

/-- Embedding of `Session.terminate`: first `__clear_data()` (which raises on
`self.key`); were that repaired, after clearing `sid` and deleting the
`dirty` and `data` attributes, `del self.cookie_header` names an attribute
never assigned (the field is `cookie_header_data`), raising
`AttributeError` as well. -/
def terminate (s : Session) (w : World) : Except PyExc (Session × World × List Event) := do
  let (_w1, _evs) ← clear_data s w
  let _s1 := { s with sid := none }
  .error (.attributeError "cookie_header")

/-- Embedding of `Session.__retrieve_data`: read memcache by sid; on a miss,
read the datastore entity; if neither has it, log an error and return an
empty dict; otherwise decode the stored bytes. The source performs no writes
here, so the world is returned unchanged. -/
def retrieve_data (sid : String) (w : World) : PyDict × World × List Event :=
  match getItem w.memcache sid with
  | some pdump => (decode_data pdump, w, [.mcGet sid true])
  | none =>
    match getItem w.datastore sid with
    | some pdump => (decode_data pdump, w, [.mcGet sid false, .dsGet sid true])
    | none => ([], w, [.mcGet sid false, .dsGet sid false, .log .error])

/-- Embedding of `Session.save(only_if_changed=True)`: return early if no id
is active or nothing changed; otherwise encode once, set memcache, attempt
the datastore put with both failure modes caught (a transient failure logs a
warning, a disabled capability is passed over), then retry the memcache set
once if the first set reported failure. -/
def save (s : Session) (w : World) (env : SaveEnv) (only_if_changed : Bool) :
    Except PyExc (Session × World × List Event) :=
  match s.sid with
  | none => .ok (s, w, [])
  | some sid =>
    if sid = "" then .ok (s, w, [])
    else if only_if_changed && !s.dirty then .ok (s, w, [])
    else
      let pdump := encode_data s.data
      let (w1, ok1) := mcSet w sid pdump env.mcSetOk1
      let (w2, dsEvs) :=
        match dsPut w1 sid pdump env.dsFailure with
        | .ok w' => (w', [Event.dsPut sid pdump none])
        | .error .transientFailure =>
            (w1, [Event.dsPut sid pdump (some .transientFailure), Event.log .warning])
        | .error .capabilityDisabled =>
            (w1, [Event.dsPut sid pdump (some .capabilityDisabled)])
      let (w3, retryEvs) :=
        if ok1 then (w2, ([] : List Event))
        else
          let (w3, ok2) := mcSet w2 sid pdump env.mcSetOk2
          (w3, [Event.mcSet sid pdump ok2])
      .ok (s, w3, Event.encode :: Event.mcSet sid pdump ok1 :: dsEvs ++ retryEvs)

/-- Embedding of `Session.get_cookie_out`: if cookie header data is pending
(truthy), return it and clear it; otherwise return `None`. -/
def get_cookie_out (s : Session) : Option String × Session :=
  match s.cookie_header_data with
  | some hd =>
      if hd = "" then (none, s)
      else (some hd, { s with cookie_header_data := none })
  | none => (none, s)

/-- Embedding of `Session.get(key, default)`: a read through the dict that
leaves the session untouched. -/
def Session.get (s : Session) (k : String) (default : Option Value) :
    Option Value × Session :=
  (match getItem s.data k with
   | some v => some v
   | none => default, s)

/-- Embedding of `Session.__getitem__`: raises `KeyError` on an absent key,
leaves the session untouched. -/
def getitem (s : Session) (k : String) : Except PyExc Value × Session :=
  (match getItem s.data k with
   | some v => .ok v
   | none => .error (.keyError k), s)

/-- Embedding of `Session.__setitem__`: starts the session first if no id is
active, then assigns the value and marks dirty. -/
def setitem (s : Session) (k : String) (v : Value) (env : StartEnv) (w : World) :
    Except PyExc (Session × World × List Event) := do
  let (s1, w1, evs) ← if truthy s.sid then .ok (s, w, ([] : List Event))
                      else start s none env w
  .ok ({ s1 with data := setItem s1.data k v, dirty := true }, w1, evs)

/-- Embedding of `Session.__delitem__`: deleting `expiration` raises; any
other present key is removed and the session marked dirty; an absent key
raises `KeyError` as the underlying dict does. -/
def delitem (s : Session) (k : String) : Except PyExc Session :=
  if k = "expiration" then .error (.keyError "expiration may not be removed")
  else
    match getItem s.data k with
    | none => .error (.keyError k)
    | some _ => .ok { s with data := delItem s.data k, dirty := true }

/-- Embedding of `Session.__contains__`: a read that leaves the session
untouched. -/
def contains (s : Session) (k : String) : Bool × Session :=
  ((getItem s.data k).isSome, s)

/-- Embedding of `Session.__iter__` (`self.data.iterkeys()`): the payload
keys, leaving the session untouched. -/
def iterkeys (s : Session) : List String × Session :=
  (keys s.data, s)

/-- One mapping-interface operation as issued by request-handling code. -/
inductive MapOp where
  | getOp (k : String) (default : Option Value)
  | getItemOp (k : String)
  | setItemOp (k : String) (v : Value)
  | delItemOp (k : String)
  | containsOp (k : String)
  | iterOp
deriving DecidableEq, Repr

/-- Run one mapping operation; an operation that raises leaves the session
and world as they were (the exception propagates to handler code, which may
catch it and continue). -/
def applyOp (s : Session) (w : World) (op : MapOp) (env : StartEnv) :
    Session × World :=
  match op with
  | .getOp k d => ((Session.get s k d).2, w)
  | .getItemOp k => ((getitem s k).2, w)
  | .setItemOp k v =>
      match setitem s k v env w with
      | .ok (s1, w1, _) => (s1, w1)
      | .error _ => (s, w)
  | .delItemOp k =>
      match delitem s k with
      | .ok s1 => (s1, w)
      | .error _ => (s, w)
  | .containsOp k => ((contains s k).2, w)
  | .iterOp => ((iterkeys s).2, w)

/-- Run a sequence of mapping operations, each with its own environment. -/
def applyOps : List (MapOp × StartEnv) → Session → World → Session × World
  | [], s, w => (s, w)
  | (op, env) :: rest, s, w =>
      let (s1, w1) := applyOp s w op env
      applyOps rest s1 w1

/-! ### Dictionary lemmas -/

theorem getItem_cons {α : Type} (k1 : String) (v1 : α) (t : List (String × α)) (j : String) :
    getItem ((k1, v1) :: t) j = if k1 = j then some v1 else getItem t j := rfl

theorem setItem_cons {α : Type} (k1 : String) (v1 : α) (t : List (String × α))
    (k : String) (v : α) :
    setItem ((k1, v1) :: t) k v =
      if k1 = k then (k, v) :: t else (k1, v1) :: setItem t k v := rfl

theorem delItem_cons {α : Type} (k1 : String) (v1 : α) (t : List (String × α)) (k : String) :
    delItem ((k1, v1) :: t) k = if k1 = k then t else (k1, v1) :: delItem t k := rfl

theorem keys_cons {α : Type} (k1 : String) (v1 : α) (t : List (String × α)) :
    keys ((k1, v1) :: t) = k1 :: keys t := rfl

theorem getItem_setItem {α : Type} (d : List (String × α)) (k j : String) (v : α) :
    getItem (setItem d k v) j = if k = j then some v else getItem d j := by
  induction d with
  | nil => rfl
  | cons kv t ih =>
    obtain ⟨k1, v1⟩ := kv
    rw [setItem_cons]
    by_cases hk : k1 = k
    · rw [if_pos hk, getItem_cons, getItem_cons, hk]
      by_cases hj : k = j
      · rw [if_pos hj, if_pos hj]
      · rw [if_neg hj, if_neg hj, if_neg hj]
    · rw [if_neg hk, getItem_cons, getItem_cons, ih]
      by_cases hj : k1 = j
      · have hkj : ¬ k = j := fun he => hk (hj.trans he.symm)
        rw [if_pos hj, if_pos hj, if_neg hkj]
      · rw [if_neg hj, if_neg hj]

theorem getItem_eq_none_of_not_mem {α : Type} (d : List (String × α)) (k : String)
    (h : k ∉ keys d) : getItem d k = none := by
  induction d with
  | nil => rfl
  | cons kv t ih =>
    obtain ⟨k1, v1⟩ := kv
    rw [keys_cons, List.mem_cons, not_or] at h
    have hne : k1 ≠ k := fun he => h.1 he.symm
    rw [getItem_cons, if_neg hne]
    exact ih h.2

theorem getItem_delItem_ne {α : Type} (d : List (String × α)) (k j : String)
    (h : j ≠ k) : getItem (delItem d k) j = getItem d j := by
  induction d with
  | nil => rfl
  | cons kv t ih =>
    obtain ⟨k1, v1⟩ := kv
    rw [delItem_cons]
    by_cases hk : k1 = k
    · have hne : ¬ k1 = j := fun he => h (he.symm.trans hk)
      rw [if_pos hk, getItem_cons, if_neg hne]
    · rw [if_neg hk, getItem_cons, getItem_cons, ih]

theorem mem_keys_setItem {α : Type} (d : List (String × α)) (k j : String) (v : α) :
    j ∈ keys (setItem d k v) ↔ j = k ∨ j ∈ keys d := by
  induction d with
  | nil => simp [setItem, keys]
  | cons kv t ih =>
    obtain ⟨k1, v1⟩ := kv
    rw [setItem_cons]
    by_cases hk : k1 = k
    · rw [if_pos hk, keys_cons, keys_cons, hk]
      simp only [List.mem_cons]
      tauto
    · rw [if_neg hk, keys_cons, keys_cons]
      simp only [List.mem_cons, ih]
      tauto

theorem nodup_keys_setItem {α : Type} (d : List (String × α)) (k : String) (v : α)
    (h : (keys d).Nodup) : (keys (setItem d k v)).Nodup := by
  induction d with
  | nil => simp [setItem, keys]
  | cons kv t ih =>
    obtain ⟨k1, v1⟩ := kv
    rw [keys_cons, List.nodup_cons] at h
    rw [setItem_cons]
    by_cases hk : k1 = k
    · rw [if_pos hk, keys_cons, List.nodup_cons]
      exact ⟨hk ▸ h.1, h.2⟩
    · rw [if_neg hk, keys_cons, List.nodup_cons]
      refine ⟨?_, ih h.2⟩
      intro hmem
      rcases (mem_keys_setItem t k k1 v).1 hmem with h1 | h1
      · exact hk h1
      · exact h.1 h1

theorem getItem_of_mem {α : Type} (d : List (String × α)) (h : (keys d).Nodup)
    (k : String) (v : α) (hm : (k, v) ∈ d) : getItem d k = some v := by
  induction d with
  | nil => cases hm
  | cons kv t ih =>
    obtain ⟨k1, v1⟩ := kv
    rw [keys_cons, List.nodup_cons] at h
    rcases List.mem_cons.1 hm with he | ht
    · cases he
      rw [getItem_cons, if_pos rfl]
    · have hne : k1 ≠ k := by
        intro heq
        subst heq
        exact h.1 (List.mem_map_of_mem Prod.fst ht)
      rw [getItem_cons, if_neg hne]
      exact ih h.2 ht

/-! ### Codec characterization -/

theorem encode_foldl_lookup (d : PyDict) :
    ∀ (acc : List (String × Protobuf) × PyDict),
    (keys d).Nodup →
    (∀ k ∈ keys d, getItem acc.1 k = none) →
    (∀ k ∈ keys d, getItem acc.2 k = none) →
    ∀ j : String,
    getItem (d.foldl encodeStep acc).1 j =
      (match getItem d j with
       | some (.model m) => some (model_to_protobuf m)
       | some (.plain _) => getItem acc.1 j
       | none => getItem acc.1 j) ∧
    getItem (d.foldl encodeStep acc).2 j =
      (match getItem d j with
       | some (.plain p) => some (.plain p)
       | some (.model _) => getItem acc.2 j
       | none => getItem acc.2 j) := by
  induction d with
  | nil => intro acc _ _ _ j; simp [getItem]
  | cons kv t ih =>
    intro acc hnd hacc1 hacc2 j
    obtain ⟨k0, v0⟩ := kv
    simp only [keys, List.map_cons, List.nodup_cons] at hnd
    have hk0t : k0 ∉ keys t := hnd.1
    have hndt : (keys t).Nodup := hnd.2
    have hacc1' : ∀ k ∈ keys t, getItem (encodeStep acc (k0, v0)).1 k = none := by
      intro k hk
      have hne : k0 ≠ k := fun he => hk0t (he ▸ hk)
      cases v0 with
      | model m =>
        simp only [encodeStep, getItem_setItem, if_neg hne]
        exact hacc1 k (List.mem_cons_of_mem _ hk)
      | plain p => exact hacc1 k (List.mem_cons_of_mem _ hk)
    have hacc2' : ∀ k ∈ keys t, getItem (encodeStep acc (k0, v0)).2 k = none := by
      intro k hk
      have hne : k0 ≠ k := fun he => hk0t (he ▸ hk)
      cases v0 with
      | model m => exact hacc2 k (List.mem_cons_of_mem _ hk)
      | plain p =>
        simp only [encodeStep, getItem_setItem, if_neg hne]
        exact hacc2 k (List.mem_cons_of_mem _ hk)
    have step := ih (encodeStep acc (k0, v0)) hndt hacc1' hacc2' j
    rw [List.foldl_cons]
    by_cases hj : k0 = j
    · subst hj
      have ht0 : getItem t k0 = none := getItem_eq_none_of_not_mem t k0 hk0t
      rw [step.1, step.2, ht0]
      cases v0 with
      | model m =>
        simp [encodeStep, getItem, getItem_setItem]
      | plain p =>
        simp [encodeStep, getItem, getItem_setItem]
    · have hcons : getItem ((k0, v0) :: t) j = getItem t j := by
        simp [getItem, hj]
      rw [step.1, step.2, hcons]
      have e1 : getItem (encodeStep acc (k0, v0)).1 j = getItem acc.1 j := by
        cases v0 with
        | model m => simp [encodeStep, getItem_setItem, hj]
        | plain p => rfl
      have e2 : getItem (encodeStep acc (k0, v0)).2 j = getItem acc.2 j := by
        cases v0 with
        | model m => rfl
        | plain p => simp [encodeStep, getItem_setItem, hj]
      rw [e1, e2]
      exact ⟨rfl, rfl⟩

theorem nodup_keys_encode_foldl (d : PyDict) :
    ∀ (acc : List (String × Protobuf) × PyDict),
    (keys acc.1).Nodup → (keys acc.2).Nodup →
    (keys (d.foldl encodeStep acc).1).Nodup ∧ (keys (d.foldl encodeStep acc).2).Nodup := by
  induction d with
  | nil => intro acc h1 h2; exact ⟨h1, h2⟩
  | cons kv t ih =>
    intro acc h1 h2
    obtain ⟨k0, v0⟩ := kv
    rw [List.foldl_cons]
    apply ih
    · cases v0 with
      | model m => exact nodup_keys_setItem _ _ _ h1
      | plain p => exact h1
    · cases v0 with
      | model m => exact h2
      | plain p => exact nodup_keys_setItem _ _ _ h2

theorem decode_foldl_lookup (eP : List (String × Protobuf)) :
    ∀ (acc : PyDict), (keys eP).Nodup → ∀ j : String,
    getItem (eP.foldl decodeStep acc) j =
      (match getItem eP j with
       | some pr => some (.model (model_from_protobuf pr))
       | none => getItem acc j) := by
  induction eP with
  | nil => intro acc _ j; simp [getItem]
  | cons kv t ih =>
    intro acc hnd j
    obtain ⟨k0, pr0⟩ := kv
    simp only [keys, List.map_cons, List.nodup_cons] at hnd
    rw [List.foldl_cons]
    have step := ih (decodeStep acc (k0, pr0)) hnd.2 j
    by_cases hj : k0 = j
    · subst hj
      have ht0 : getItem t k0 = none := getItem_eq_none_of_not_mem t k0 hnd.1
      rw [step, ht0]
      simp [decodeStep, getItem, getItem_setItem]
    · have hcons : getItem ((k0, pr0) :: t) j = getItem t j := by
        simp [getItem, hj]
      rw [step, hcons]
      have e1 : getItem (decodeStep acc (k0, pr0)) j = getItem acc j := by
        simp [decodeStep, getItem_setItem, hj]
      rw [e1]

theorem nodup_keys_decode_foldl (eP : List (String × Protobuf)) :
    ∀ (acc : PyDict), (keys acc).Nodup → (keys (eP.foldl decodeStep acc)).Nodup := by
  induction eP with
  | nil => intro acc h; exact h
  | cons kv t ih =>
    intro acc h
    rw [List.foldl_cons]
    exact ih _ (nodup_keys_setItem _ _ _ h)

theorem getItem_decode_encode (d : PyDict) (h : (keys d).Nodup) (j : String) :
    getItem (decode_data (encode_data d)) j = getItem d j := by
  have hchar := encode_foldl_lookup d ([], []) h
      (fun k _ => rfl) (fun k _ => rfl) j
  have hsplitnd := nodup_keys_encode_foldl d ([], []) (by simp [keys]) (by simp [keys])
  have hdec := decode_foldl_lookup (d.foldl encodeStep ([], [])).1
      (d.foldl encodeStep ([], [])).2 hsplitnd.1 j
  show getItem ((d.foldl encodeStep ([], [])).1.foldl decodeStep
      (d.foldl encodeStep ([], [])).2) j = getItem d j
  rw [hdec, hchar.1, hchar.2]
  cases hd : getItem d j with
  | none => simp [getItem]
  | some v =>
    cases v with
    | model m => rfl
    | plain p => simp [getItem]

theorem nodup_keys_decode_encode (d : PyDict) :
    (keys (decode_data (encode_data d))).Nodup := by
  have hsplitnd := nodup_keys_encode_foldl d ([], []) (by simp [keys]) (by simp [keys])
  exact nodup_keys_decode_foldl _ _ hsplitnd.2

/-- Example payload mixing structured-record and plain values. -/
def sampleDict : PyDict :=
  [("expiration", .plain (.pTime 1000)),
   ("user", .model ⟨"UserRec", [("age", 41), ("score", -2)]⟩),
   ("cart", .plain (.pList [1, 2, 3])),
   ("name", .plain (.pStr "alice"))]

/-- C4: for every payload whose keys are unique (as Python dict keys are),
containing any mix of structured-record and plain values, decoding the
encoding yields a payload equal (as a Python dict) to the original. -/
theorem round_trip_decode_encode (d : PyDict) (h : (keys d).Nodup) :
    pyDictEq (decode_data (encode_data d)) d = true := by
  unfold pyDictEq
  rw [Bool.and_eq_true, List.all_eq_true, List.all_eq_true]
  constructor
  · intro kv hkv
    rw [beq_iff_eq, ← getItem_decode_encode d h kv.1]
    exact getItem_of_mem _ (nodup_keys_decode_encode d) kv.1 kv.2 hkv
  · intro kv hkv
    rw [beq_iff_eq, getItem_decode_encode d h kv.1]
    exact getItem_of_mem _ h kv.1 kv.2 hkv

/-- Witness for C4 at a concrete mixed payload. -/
theorem round_trip_decode_encode_witness :
    pyDictEq (decode_data (encode_data sampleDict)) sampleDict = true :=
  round_trip_decode_encode sampleDict (by decide)

/-! ### Save path -/

/-- C8: with `only_if_changed` set, save on an unstarted session or a clean
session performs no storage writes and leaves session and world unchanged. -/
theorem save_noop_when_clean (s : Session) (w : World) (env : SaveEnv)
    (h : s.sid = none ∨ s.dirty = false) :
    save s w env true = .ok (s, w, []) := by
  rcases h with h | h
  · simp [save, h]
  · cases hs : s.sid with
    | none => simp [save, hs]
    | some sid =>
      by_cases he : sid = ""
      · simp [save, hs, he]
      · simp [save, hs, he, h]

/-- Witness for C8 at a concrete clean session. -/
theorem save_noop_when_clean_witness :
    save ⟨some "s1", none, sampleDict, false, some "s1"⟩ ⟨[], []⟩
        ⟨true, none, true⟩ true =
      .ok (⟨some "s1", none, sampleDict, false, some "s1"⟩, ⟨[], []⟩, []) :=
  save_noop_when_clean _ _ _ (Or.inr rfl)

/-- The effect trace of the datastore put section of save, by outcome. -/
def dsPutTrace (sid : String) (pd : PDump) : Option DsErr → List Event
  | none => [Event.dsPut sid pd none]
  | some .transientFailure =>
      [Event.dsPut sid pd (some .transientFailure), Event.log .warning]
  | some .capabilityDisabled =>
      [Event.dsPut sid pd (some .capabilityDisabled)]

/-- C1: on a started, dirty session, for every combination of tier outcomes,
save returns without raising (both datastore failure modes are absorbed),
the session is unchanged, the effect trace is exactly one encode, then the
cache write, then the datastore put attempt (with a warning logged on a
transient failure), then one retried cache write iff the first cache write
reported failure; the cache holds the encoded payload afterwards iff some
cache write succeeded. -/
theorem save_write_path (s : Session) (w : World) (env : SaveEnv) (sid : String)
    (hsid : s.sid = some sid) (hne : sid ≠ "") (hdirty : s.dirty = true) :
    Except.map (fun r => r.1) (save s w env true) = .ok s ∧
    Except.map (fun r => r.2.2) (save s w env true) =
      .ok (Event.encode :: Event.mcSet sid (encode_data s.data) env.mcSetOk1 ::
        dsPutTrace sid (encode_data s.data) env.dsFailure ++
        (if env.mcSetOk1 then []
         else [Event.mcSet sid (encode_data s.data) env.mcSetOk2])) ∧
    Except.map (fun r => getItem r.2.1.memcache sid) (save s w env true) =
      .ok (if env.mcSetOk1 || env.mcSetOk2 then some (encode_data s.data)
           else getItem w.memcache sid) := by
  obtain ⟨ok1, dsf, ok2⟩ := env
  refine ⟨?_, ?_, ?_⟩ <;>
    cases ok1 <;> cases ok2 <;> rcases dsf with _ | (_ | _) <;>
      simp [save, hsid, hne, hdirty, mcSet, dsPut, dsPutTrace, getItem_setItem,
        Except.map]

/-- Witness for C1: a started dirty session, first cache write failing, the
datastore put failing transiently, the retried cache write succeeding. -/
theorem save_write_path_witness :
    Except.map (fun r => r.1)
        (save ⟨some "s1", none, sampleDict, true, some "s1"⟩ ⟨[], []⟩
          ⟨false, some .transientFailure, true⟩ true) =
      .ok ⟨some "s1", none, sampleDict, true, some "s1"⟩ ∧
    Except.map (fun r => r.2.2)
        (save ⟨some "s1", none, sampleDict, true, some "s1"⟩ ⟨[], []⟩
          ⟨false, some .transientFailure, true⟩ true) =
      .ok (Event.encode :: Event.mcSet "s1" (encode_data sampleDict) false ::
        dsPutTrace "s1" (encode_data sampleDict) (some .transientFailure) ++
        (if false then [] else [Event.mcSet "s1" (encode_data sampleDict) true])) ∧
    Except.map (fun r => getItem r.2.1.memcache "s1")
        (save ⟨some "s1", none, sampleDict, true, some "s1"⟩ ⟨[], []⟩
          ⟨false, some .transientFailure, true⟩ true) =
      .ok (if false || true then some (encode_data sampleDict)
           else getItem (World.mk [] []).memcache "s1") :=
  save_write_path ⟨some "s1", none, sampleDict, true, some "s1"⟩ ⟨[], []⟩
    ⟨false, some .transientFailure, true⟩ "s1" rfl (by decide) rfl

/-! ### Load path -/

/-- Concrete world for the load-path claims: the cache lacks the identifier
but the datastore has the record. -/
def c2World : World := ⟨[], [("sid0", encode_data sampleDict)]⟩

/-- C2 counterexample: after a load that found the record only in the
datastore, the cache still lacks the identifier (no repopulation happens)
and a second load of the same identifier again reads the datastore instead
of being served from cache; moreover, when neither tier has the record the
log call is at error severity, not warning. -/
theorem retrieve_no_repopulate :
    (getItem c2World.datastore "sid0").isSome = true ∧
    getItem (retrieve_data "sid0" c2World).2.1.memcache "sid0" = none ∧
    (retrieve_data "sid0" (retrieve_data "sid0" c2World).2.1).2.2 =
      [.mcGet "sid0" false, .dsGet "sid0" true] ∧
    (retrieve_data "missing" ⟨[], []⟩).2.2 =
      [.mcGet "missing" false, .dsGet "missing" false, .log .error] :=
  ⟨rfl, rfl, rfl, rfl⟩

/-- C2 (amended): load reads the cache first and on a hit returns the
decoded payload; on a miss it reads the datastore by identifier and, if the
record is found, decodes and returns it, leaving both tiers unchanged (the
cache is not repopulated, so a subsequent load of the same identifier reads
the datastore again); if neither tier has the record, it returns an empty
payload and logs an error instead of failing the request. -/
theorem retrieve_cache_aside (sid : String) (w : World) :
    (∀ pd, getItem w.memcache sid = some pd →
      retrieve_data sid w = (decode_data pd, w, [.mcGet sid true])) ∧
    (∀ pd, getItem w.memcache sid = none → getItem w.datastore sid = some pd →
      retrieve_data sid w = (decode_data pd, w, [.mcGet sid false, .dsGet sid true]) ∧
      retrieve_data sid (retrieve_data sid w).2.1 = retrieve_data sid w) ∧
    (getItem w.memcache sid = none → getItem w.datastore sid = none →
      retrieve_data sid w =
        ([], w, [.mcGet sid false, .dsGet sid false, .log .error])) := by
  refine ⟨?_, ?_, ?_⟩
  · intro pd h
    simp [retrieve_data, h]
  · intro pd h1 h2
    constructor
    · simp [retrieve_data, h1, h2]
    · simp [retrieve_data, h1, h2]
  · intro h1 h2
    simp [retrieve_data, h1, h2]

/-- Witness for C2 at the concrete two-tier world. -/
theorem retrieve_cache_aside_witness :
    retrieve_data "sid0" c2World =
      (decode_data (encode_data sampleDict), c2World,
        [.mcGet "sid0" false, .dsGet "sid0" true]) :=
  ((retrieve_cache_aside "sid0" c2World).2.1 (encode_data sampleDict) rfl rfl).1

/-! ### Rotation and termination -/

/-- A concrete active session and a world holding its record in both tiers. -/
def activeSession : Session :=
  ⟨some "oldsid", none, sampleDict, false, some "oldsid"⟩

/-- The world accompanying `activeSession`. -/
def activeWorld : World :=
  ⟨[("oldsid", encode_data sampleDict)], [("oldsid", encode_data sampleDict)]⟩

/-- C3: evaluating id rotation on an active session. The source raises
`AttributeError` — `clear_data` reads `self.key`, an attribute the class
never assigns — so rotation never completes, never clears the old entries,
and never installs a new identifier, contradicting the docstrings of
`user_is_now_logged_in` and `clear_data` (the spec describes the intended
behavior; `self.sid` is the cache key everywhere else in the source). -/
theorem rotate_raises_attribute_error :
    user_is_now_logged_in activeSession "newsid" activeWorld =
      .error (.attributeError "key") := rfl

/-- C6: evaluating terminate on an active session. The source raises
`AttributeError` in `clear_data` (reading the never-assigned `self.key`), so
termination never completes; even with that repaired, terminate deletes
`self.cookie_header`, another attribute that is never assigned (the field is
`cookie_header_data`). -/
theorem terminate_raises_attribute_error :
    terminate activeSession activeWorld = .error (.attributeError "key") := rfl

/-! ### Cookie emission and mapping reads -/

/-- C9: a pending cookie header is returned exactly once — the first call
returns it and clears the pending state, the next call returns none and
changes nothing — and a session with no pending cookie gets none with no
state change. -/
theorem get_cookie_out_once (s : Session) (hd : String) (s2 : Session)
    (h : s.cookie_header_data = some hd) (hne : hd ≠ "")
    (h2 : s2.cookie_header_data = none) :
    get_cookie_out s = (some hd, { s with cookie_header_data := none }) ∧
    get_cookie_out { s with cookie_header_data := none } =
      (none, { s with cookie_header_data := none }) ∧
    get_cookie_out s2 = (none, s2) := by
  refine ⟨?_, ?_, ?_⟩
  · simp [get_cookie_out, h, hne]
  · simp [get_cookie_out]
  · simp [get_cookie_out, h2]

/-- Witness for C9 at a concrete pending session. -/
theorem get_cookie_out_once_witness :
    get_cookie_out ⟨some "s1", some "hdr", [], true, some "s1"⟩ =
      (some "hdr",
        { Session.mk (some "s1") (some "hdr") [] true (some "s1") with
            cookie_header_data := none }) ∧
    get_cookie_out { Session.mk (some "s1") (some "hdr") [] true (some "s1") with
        cookie_header_data := none } =
      (none, { Session.mk (some "s1") (some "hdr") [] true (some "s1") with
          cookie_header_data := none }) ∧
    get_cookie_out ⟨some "s2", none, [], false, some "s2"⟩ =
      (none, ⟨some "s2", none, [], false, some "s2"⟩) :=
  get_cookie_out_once ⟨some "s1", some "hdr", [], true, some "s1"⟩ "hdr"
    ⟨some "s2", none, [], false, some "s2"⟩ rfl (by decide) rfl

/-- C10: the read-only mapping operations — get with a default, indexed
read, membership test, and key iteration — return the session exactly as it
was: payload, identifier, dirty flag and pending cookie are untouched. -/
theorem reads_leave_session_unchanged (s : Session) (k : String) (d : Option Value) :
    (Session.get s k d).2 = s ∧ (getitem s k).2 = s ∧
    (contains s k).2 = s ∧ (iterkeys s).2 = s :=
  ⟨rfl, rfl, rfl, rfl⟩

/-! ### Session start and the expiration invariant -/

theorem except_bind_ok {ε α β : Type} (a : α) (f : α → Except ε β) :
    (Except.ok a : Except ε α) >>= f = f a := rfl

theorem except_bind_error {ε α β : Type} (e : ε) (f : α → Except ε β) :
    (Except.error e : Except ε α) >>= f = .error e := rfl

/-- The session state after `set_sid` installs a new id and cookie. -/
def afterSetSid (s : Session) (sid : String) (exs : String) : Session :=
  { s with
      sid := some sid,
      db_key := some sid,
      cookie_header_data := some (cookie_output sid exs) }

/-- The intermediate session built by start before it calls `set_sid`. -/
def startBody (s : Session) (exp : Option Value) (env : StartEnv) : Session :=
  { s with
      dirty := true,
      data := [("expiration", exp.getD (.plain (.pTime (env.now + COOKIE_LIFETIME))))] }

theorem set_sid_started_raises (s : Session) (sid : String) (mk : Bool) (w : World)
    (hs : truthy s.sid = true) :
    set_sid s sid mk w = .error (.attributeError "key") := by
  simp [set_sid, hs, clear_data, except_bind_error]

theorem set_sid_unstarted (s : Session) (sid : String) (w : World)
    (hs : truthy s.sid = false) (e : Value)
    (hdata : getItem s.data "expiration" = some e)
    (exs : String) (hst : strftimeV e = .ok exs) :
    set_sid s sid true w = .ok (afterSetSid s sid exs, w, []) := by
  simp [set_sid, hs, hdata, hst, except_bind_ok, afterSetSid]

theorem set_sid_unstarted_err (s : Session) (sid : String) (w : World)
    (hs : truthy s.sid = false) (e : Value)
    (hdata : getItem s.data "expiration" = some e)
    (err : PyExc) (hst : strftimeV e = .error err) :
    set_sid s sid true w = .error err := by
  simp [set_sid, hs, hdata, hst, except_bind_ok, except_bind_error]

theorem start_eq_set_sid (s : Session) (exp : Option Value) (env : StartEnv)
    (w : World) :
    start s exp env w = set_sid (startBody s exp env) env.newSid true w := rfl

theorem startBody_data (s : Session) (exp : Option Value) (env : StartEnv) :
    getItem (startBody s exp env).data "expiration" =
      some (exp.getD (.plain (.pTime (env.now + COOKIE_LIFETIME)))) := by
  rw [show (startBody s exp env).data =
      [("expiration", exp.getD (.plain (.pTime (env.now + COOKIE_LIFETIME))))] from rfl,
    getItem_cons, if_pos rfl]

/-- Evaluation of start on a session whose id is falsy: the payload becomes
the single expiration entry, a fresh id and cookie are installed, the dirty
flag is set, and the world is untouched. -/
theorem start_not_started (s : Session) (env : StartEnv) (w : World)
    (hs : truthy s.sid = false) :
    start s none env w =
      .ok (afterSetSid (startBody s none env) env.newSid
        (strftime (env.now + COOKIE_LIFETIME)), w, []) := by
  rw [start_eq_set_sid,
    set_sid_unstarted (startBody s none env) env.newSid w
      (by simpa [startBody] using hs) _ (startBody_data s none env) _ rfl]

/-- Evaluation of a first write on a session whose id is falsy: the write
starts the session and then lands in the fresh payload. -/
theorem setitem_not_started (s : Session) (k : String) (v : Value)
    (env : StartEnv) (w : World) (hs : truthy s.sid = false) :
    setitem s k v env w =
      .ok ({ afterSetSid (startBody s none env) env.newSid
              (strftime (env.now + COOKIE_LIFETIME)) with
              data := setItem
                [("expiration", Value.plain (.pTime (env.now + COOKIE_LIFETIME)))] k v,
              dirty := true }, w, []) := by
  simp only [setitem, hs, Bool.false_eq_true, if_false,
    start_not_started s env w hs, except_bind_ok]
  rfl

/-- The shape of any successful start: the new payload is exactly the
expiration entry, the world is untouched, the session is dirty with the
fresh id installed. -/
theorem start_ok_shape (s0 s1 : Session) (exp : Option Value) (env : StartEnv)
    (w0 w1 : World) (evs : List Event)
    (hstart : start s0 exp env w0 = .ok (s1, w1, evs)) :
    s1.data = [("expiration", exp.getD (.plain (.pTime (env.now + COOKIE_LIFETIME))))] ∧
    w1 = w0 ∧ s1.dirty = true ∧ s1.sid = some env.newSid := by
  rw [start_eq_set_sid] at hstart
  by_cases hs : truthy s0.sid
  · rw [set_sid_started_raises _ _ _ _ (by simpa [startBody] using hs)] at hstart
    cases hstart
  · have hs0 : truthy (startBody s0 exp env).sid = false := by
      simpa [startBody] using hs
    cases hst : strftimeV (exp.getD (.plain (.pTime (env.now + COOKIE_LIFETIME)))) with
    | error err =>
      rw [set_sid_unstarted_err _ _ _ hs0 _ (startBody_data s0 exp env) _ hst] at hstart
      cases hstart
    | ok exs =>
      rw [set_sid_unstarted _ _ _ hs0 _ (startBody_data s0 exp env) _ hst] at hstart
      simp only [Except.ok.injEq, Prod.mk.injEq] at hstart
      obtain ⟨hA, hB, _⟩ := hstart
      subst hA
      subst hB
      exact ⟨rfl, rfl, rfl, rfl⟩

/-- C5: writing any key on an unstarted session (no identifier) starts it
first: afterwards the session holds the generated identifier, a pending
cookie header, an expiration entry, and the dirty flag, and the payload maps
the written key to the written value — the write is not lost. -/
theorem first_write_starts_session (s : Session) (k : String) (v : Value)
    (env : StartEnv) (w : World) (h : s.sid = none) :
    Except.map (fun r => r.1.sid) (setitem s k v env w) = .ok (some env.newSid) ∧
    Except.map (fun r => r.1.cookie_header_data) (setitem s k v env w) =
      .ok (some (cookie_output env.newSid (strftime (env.now + COOKIE_LIFETIME)))) ∧
    Except.map (fun r => (getItem r.1.data "expiration").isSome) (setitem s k v env w) =
      .ok true ∧
    Except.map (fun r => r.1.dirty) (setitem s k v env w) = .ok true ∧
    Except.map (fun r => getItem r.1.data k) (setitem s k v env w) = .ok (some v) := by
  have hs : truthy s.sid = false := by rw [h]; rfl
  rw [setitem_not_started s k v env w hs]
  refine ⟨rfl, rfl, ?_, rfl, ?_⟩
  · show (Except.ok (getItem (setItem
        [("expiration", Value.plain (.pTime (env.now + COOKIE_LIFETIME)))] k v)
        "expiration").isSome : Except PyExc Bool) = Except.ok true
    rw [getItem_setItem]
    by_cases hk : k = "expiration"
    · rw [if_pos hk]
      rfl
    · rw [if_neg hk, getItem_cons, if_pos rfl]
      rfl
  · show (Except.ok (getItem (setItem
        [("expiration", Value.plain (.pTime (env.now + COOKIE_LIFETIME)))] k v) k) :
        Except PyExc (Option Value)) = Except.ok (some v)
    rw [getItem_setItem, if_pos rfl]

/-- Concrete unstarted session, environment, ops and started state used by
the witnesses. -/
def c7S0 : Session := ⟨none, none, [], false, none⟩

/-- Start environment for the witnesses. -/
def c7Env : StartEnv := ⟨"abc123", 50⟩

/-- The session produced by starting `c7S0` under `c7Env`. -/
def c7Started : Session :=
  ⟨some "abc123",
   some (cookie_output "abc123" (strftime (50 + COOKIE_LIFETIME))),
   [("expiration", .plain (.pTime (50 + COOKIE_LIFETIME)))], true, some "abc123"⟩

/-- A sample sequence of mapping operations for the witnesses. -/
def c7Ops : List (MapOp × StartEnv) :=
  [(.setItemOp "cart" (.plain (.pInt 7)), c7Env),
   (.setItemOp "expiration" (.plain (.pTime 99)), c7Env),
   (.delItemOp "cart", c7Env),
   (.delItemOp "expiration", c7Env),
   (.getItemOp "expiration", c7Env),
   (.containsOp "cart", c7Env),
   (.iterOp, c7Env)]

/-- Witness for C5 at a concrete unstarted session. -/
theorem first_write_starts_session_witness :
    Except.map (fun r => r.1.sid)
        (setitem c7S0 "cart" (.plain (.pInt 7)) c7Env ⟨[], []⟩) =
      .ok (some c7Env.newSid) ∧
    Except.map (fun r => r.1.cookie_header_data)
        (setitem c7S0 "cart" (.plain (.pInt 7)) c7Env ⟨[], []⟩) =
      .ok (some (cookie_output c7Env.newSid (strftime (c7Env.now + COOKIE_LIFETIME)))) ∧
    Except.map (fun r => (getItem r.1.data "expiration").isSome)
        (setitem c7S0 "cart" (.plain (.pInt 7)) c7Env ⟨[], []⟩) = .ok true ∧
    Except.map (fun r => r.1.dirty)
        (setitem c7S0 "cart" (.plain (.pInt 7)) c7Env ⟨[], []⟩) = .ok true ∧
    Except.map (fun r => getItem r.1.data "cart")
        (setitem c7S0 "cart" (.plain (.pInt 7)) c7Env ⟨[], []⟩) =
      .ok (some (.plain (.pInt 7))) :=
  first_write_starts_session c7S0 "cart" (.plain (.pInt 7)) c7Env ⟨[], []⟩ rfl

/-- One mapping operation preserves the presence of the expiration entry. -/
theorem expiration_invariant_step (s : Session) (w : World) (op : MapOp)
    (env : StartEnv) (h : (getItem s.data "expiration").isSome = true) :
    (getItem (applyOp s w op env).1.data "expiration").isSome = true := by
  cases op with
  | getOp k d => exact h
  | getItemOp k => exact h
  | containsOp k => exact h
  | iterOp => exact h
  | setItemOp k v =>
    by_cases hs : truthy s.sid
    · have hset : setitem s k v env w =
          .ok ({ s with data := setItem s.data k v, dirty := true }, w, []) := by
        simp [setitem, hs, except_bind_ok]
      simp only [applyOp, hset]
      rw [getItem_setItem]
      by_cases hk : k = "expiration"
      · rw [if_pos hk]
        rfl
      · rw [if_neg hk]
        exact h
    · have hs0 : truthy s.sid = false := by simpa using hs
      simp only [applyOp, setitem_not_started s k v env w hs0]
      rw [getItem_setItem]
      by_cases hk : k = "expiration"
      · rw [if_pos hk]
        rfl
      · rw [if_neg hk, getItem_cons, if_pos rfl]
        rfl
  | delItemOp k =>
    by_cases hk : k = "expiration"
    · subst hk
      simpa [applyOp, delitem] using h
    · cases hg : getItem s.data k with
      | none => simpa [applyOp, delitem, hk, hg] using h
      | some v0 =>
        simp only [applyOp, delitem, if_neg hk, hg]
        rw [getItem_delItem_ne]
        · exact h
        · exact fun he => hk he.symm

/-- Any sequence of mapping operations preserves the expiration entry. -/
theorem expiration_invariant_ops (ops : List (MapOp × StartEnv)) :
    ∀ (s : Session) (w : World), (getItem s.data "expiration").isSome = true →
    (getItem (applyOps ops s w).1.data "expiration").isSome = true := by
  induction ops with
  | nil => intro s w h; exact h
  | cons p rest ih =>
    intro s w h
    obtain ⟨op, env⟩ := p
    simp only [applyOps]
    exact ih _ _ (expiration_invariant_step s w op env h)

/-- C7: once start has run, the payload holds the expiration entry; the
entry survives any sequence of mapping operations issued by handler code,
and deleting it through the mapping interface on the resulting session
raises the protected-key error. -/
theorem expiration_protected (s0 s1 : Session) (exp : Option Value)
    (env : StartEnv) (w0 w1 : World) (evs : List Event)
    (hstart : start s0 exp env w0 = .ok (s1, w1, evs))
    (ops : List (MapOp × StartEnv)) :
    (getItem s1.data "expiration").isSome = true ∧
    (getItem (applyOps ops s1 w1).1.data "expiration").isSome = true ∧
    delitem (applyOps ops s1 w1).1 "expiration" =
      .error (.keyError "expiration may not be removed") := by
  have hshape := start_ok_shape s0 s1 exp env w0 w1 evs hstart
  have h0 : (getItem s1.data "expiration").isSome = true := by
    rw [hshape.1, getItem_cons, if_pos rfl]
    rfl
  exact ⟨h0, expiration_invariant_ops ops s1 w1 h0, rfl⟩

/-- Witness for C7: concrete start followed by a concrete operation
sequence, including attempted overwrites and deletions of expiration. -/
theorem expiration_protected_witness :
    (getItem c7Started.data "expiration").isSome = true ∧
    (getItem (applyOps c7Ops c7Started ⟨[], []⟩).1.data "expiration").isSome = true ∧
    delitem (applyOps c7Ops c7Started ⟨[], []⟩).1 "expiration" =
      .error (.keyError "expiration may not be removed") :=
  expiration_protected c7S0 c7Started none c7Env ⟨[], []⟩ ⟨[], []⟩ [] rfl c7Ops

end GaeSessions
